import Mathlib

/-!
Shallow embedding of the PayPal payment-webhook reconciliation and
access-granting flow of the Course-MiniAPP server
(`src/server/src/controllers/admin.controller.ts` plus the currency helper
`src/server/src/utils/currency.ts` and the config shape of
`src/server/src/config/env.ts`).

Database tables become lists, the cache becomes a list of present keys,
external collaborators (PayPal API, course filesystem/metadata, the
notification courier) become fields of a read-only environment, and each
handler becomes a pure state transformer.
-/

namespace CourseApp

/-! ## Currency helpers (`src/server/src/utils/currency.ts`) -/

/-- JavaScript `String.prototype.trim()`: strip whitespace from both ends
(modelled character-wise over the string's character list). -/
def strTrim (s : String) : String :=
  ⟨((s.data.dropWhile Char.isWhitespace).reverse.dropWhile Char.isWhitespace).reverse⟩

/-- JavaScript `String.prototype.toUpperCase()` on the ASCII currency codes
this flow handles: uppercase each character. -/
def strUpper (s : String) : String :=
  ⟨s.data.map Char.toUpper⟩

/-- `normalizeCurrency(value, fallback)`: trim the value if it is a string,
fall back when empty/absent, uppercase the result. -/
def normalizeCurrency (value : Option String) (fallback : String) : String :=
  let trimmed := match value with
    | some s => strTrim s
    | none => ""
  strUpper (if trimmed = "" then fallback else trimmed)

/-! ## Custom-id parsing

`handlePaymentCaptureCompleted` (and the denied/refunded handlers) parse the
resource's `custom_id` with the JavaScript regular expression
`/user_(\d+)_course_(\d+)/` and `parseInt(.., 10)` on the two digit groups.
The regex is NOT anchored: `String.prototype.match` finds the leftmost
position at which `user_` is followed by one or more digits, then
`_course_`, then one or more digits.  Because `_` is not a digit, the
greedy `\d+` groups never need backtracking: at any candidate position the
match succeeds iff the maximal digit run after `user_` is followed
literally by `_course_` and at least one further digit. -/

/-- Split a character list into its maximal leading run of decimal digits
and the rest. -/
def digitSpan : List Char → List Char × List Char
  | [] => ([], [])
  | c :: cs =>
    if c.isDigit then
      let r := digitSpan cs
      (c :: r.1, r.2)
    else ([], c :: cs)

/-- Value of a decimal digit string, as `parseInt(s, 10)` computes it on an
all-digit string. -/
def digitsVal (ds : List Char) : Nat :=
  ds.foldl (fun a c => a * 10 + (c.toNat - 48)) 0

/-- Strip a literal prefix list of characters, or fail. -/
def dropLit : List Char → List Char → Option (List Char)
  | [], cs => some cs
  | _ :: _, [] => none
  | p :: ps, c :: cs => if c = p then dropLit ps cs else none

/-- Try to match `user_(\d+)_course_(\d+)` starting exactly at the head of
`cs`, returning the two captured numbers. -/
def matchUserCourseAt (cs : List Char) : Option (Nat × Nat) :=
  match dropLit "user_".data cs with
  | none => none
  | some r1 =>
    let d1 := digitSpan r1
    if d1.1 = [] then none
    else
      match dropLit "_course_".data d1.2 with
      | none => none
      | some r3 =>
        let d2 := digitSpan r3
        if d2.1 = [] then none
        else some (digitsVal d1.1, digitsVal d2.1)

/-- Leftmost-match scan over all start positions, as the unanchored
JavaScript regex does. -/
def scanUserCourse : List Char → Option (Nat × Nat)
  | [] => none
  | c :: cs =>
    match matchUserCourseAt (c :: cs) with
    | some p => some p
    | none => scanUserCourse cs

/-- `customId.match(/user_(\d+)_course_(\d+)/)` followed by
`parseInt(match[1], 10)` / `parseInt(match[2], 10)`:
`some (userId, courseId)` on a match, `none` when the regex finds no
occurrence anywhere in the string. -/
def parseCustomId (s : String) : Option (Nat × Nat) :=
  scanUserCourse s.data

/-- Modelled from the spec: "a strict fixed pattern", i.e. the string is
EXACTLY `user_<digits>_course_<digits>` with nothing before or after.
This is the spec's reading of the format; it is compared against the
source's unanchored `parseCustomId` above. -/
def specExactCustomId (s : String) : Bool :=
  match dropLit "user_".data s.data with
  | none => false
  | some r1 =>
    let d1 := digitSpan r1
    if d1.1 = [] then false
    else
      match dropLit "_course_".data d1.2 with
      | none => false
      | some r3 => decide (r3 ≠ []) && r3.all Char.isDigit

/-! ## Data model -/

/-- Transaction status column: `status ∈ {pending, success, failed, refunded}`. -/
inductive TxStatus where
  | pending
  | success
  | failed
  | refunded
deriving DecidableEq, Repr

/-- Transaction type column: `type ∈ {purchase, refund}`. -/
inductive TxType where
  | purchase
  | refund
deriving DecidableEq, Repr

/-- One row of the `transactions` table.  `id` is the rowid, `createdAt` a
logical timestamp standing for `created_at` (strictly increasing across
inserts, so `ORDER BY created_at DESC LIMIT 1` is deterministic).
Amounts are kept as the strings/numbers the code writes through unchanged. -/
structure Txn where
  id : Nat
  userId : Nat
  courseId : Nat
  paymentId : String
  amount : String
  currency : String
  status : TxStatus
  ttype : TxType
  notificationMessageId : Option Nat
  createdAt : Nat
deriving DecidableEq, Repr

/-- Cache keys touched by the flow: `CACHE_KEYS.USER_COURSES(u)` and
`CACHE_KEYS.USER(u)`. -/
inductive CacheKey where
  | userCourses (u : Nat)
  | user (u : Nat)
deriving DecidableEq, Repr

/-- A recorded notification attempt: `(userId, courseTitle, messageIdToEdit)`. -/
structure NotifAttempt where
  userId : Nat
  title : String
  messageId : Option Nat
deriving DecidableEq, Repr

/-- Mutable world state: the two database tables, the cache (present keys),
the log of purchase-confirmation notification attempts, the log of PayPal
orders created at the provider, and bookkeeping counters. -/
structure St where
  userCourses : List (Nat × Nat)
  transactions : List Txn
  cacheKeys : List CacheKey
  confirmationAttempts : List NotifAttempt
  paypalOrdersCreated : List String
  nextId : Nat
  clock : Nat
deriving DecidableEq, Repr

/-- Course metadata as loaded by `loadCourseMetadata`. -/
structure CourseMeta where
  title : String
  price : String
  currency : Option String
deriving DecidableEq, Repr

/-- The PayPal order the provider returns from `paypalService.createOrder`. -/
structure PaypalOrder where
  orderId : String
  approveUrl : String
  amount : String
  currency : String
deriving DecidableEq, Repr

/-- Read-only environment: course filesystem and metadata, app/PayPal
currency config, and the behaviour of the external PayPal and notification
collaborators. -/
structure Env where
  coursesFS : List Nat
  courseMeta : List (Nat × CourseMeta)
  appDefaultCurrency : String
  paypalConfigCurrency : Option String
  paypalCreateOrder : Option PaypalOrder
  paypalCaptureOrder : Option (String × String × String)
  notifProcessingResult : Option Nat
deriving DecidableEq, Repr

/-- `loadCourseMetadata(courseId)`. -/
def lookupMeta (env : Env) (courseId : Nat) : Option CourseMeta :=
  (env.courseMeta.find? (fun p => p.1 = courseId)).map (·.2)

/-- `resolvePaypalCurrency(courseCurrency?)`: course currency, falling back
to the configured PayPal currency, falling back to the app default. -/
def resolvePaypalCurrency (env : Env) (courseCurrency : Option String) : String :=
  normalizeCurrency courseCurrency
    (normalizeCurrency env.paypalConfigCurrency env.appDefaultCurrency)

/-! ## Webhook events -/

/-- `event.resource.amount`. -/
structure PPAmount where
  currency_code : Option String
  value : String
deriving DecidableEq, Repr

/-- `event.resource`, with `supplementary_data.related_ids.order_id`
flattened into one optional field. -/
structure PPResource where
  id : String
  custom_id : Option String
  amount : Option PPAmount
  orderId : Option String
deriving DecidableEq, Repr

/-- A PayPal webhook event. -/
structure PPEvent where
  id : String
  event_type : String
  resource : PPResource
deriving DecidableEq, Repr

/-! ## Capture-completed handler (`handlePaymentCaptureCompleted`) -/

/-- `cache.del(k)`. -/
def cacheDel (ks : List CacheKey) (k : CacheKey) : List CacheKey :=
  ks.filter (fun k2 => k2 ≠ k)

/-- `SELECT id FROM user_courses WHERE user_id = ? AND course_id = ?`
is non-empty. -/
def hasEntitlement (s : St) (u c : Nat) : Bool :=
  s.userCourses.contains (u, c)

/-- `event.resource.amount?.value || fallback` (JavaScript `||`: an absent
amount or an empty value string falls back). -/
def amountValueOr (a : Option PPAmount) (fallback : String) : String :=
  match a with
  | some am => if am.value = "" then fallback else am.value
  | none => fallback

/-- `event.resource.amount?.currency_code`. -/
def amountCurrency (a : Option PPAmount) : Option String :=
  a.bind (·.currency_code)

/-- The `SELECT ... FROM transactions WHERE user_id = ? AND course_id = ?
AND status = 'pending' AND payment_id = ? ORDER BY created_at DESC LIMIT 1`
query of the reconciliation step. -/
def findPending (ts : List Txn) (u c : Nat) (oid : String) : Option Txn :=
  let ms := ts.filter (fun t =>
    t.userId = u && t.courseId = c && t.status = TxStatus.pending && t.paymentId = oid)
  ms.foldl (fun acc t =>
    match acc with
    | none => some t
    | some b => if b.createdAt < t.createdAt then some t else some b) none

/-- The row inserted by the fallback
`INSERT INTO transactions (...'success', 'purchase'...)`. -/
def newSuccessTxn (s : St) (u c : Nat) (captureId amt cur : String) : Txn :=
  { id := s.nextId, userId := u, courseId := c, paymentId := captureId,
    amount := amt, currency := cur, status := TxStatus.success,
    ttype := TxType.purchase, notificationMessageId := none,
    createdAt := s.clock }

/-- The fallback `INSERT INTO transactions (...'success', 'purchase'...)`. -/
def insertSuccessTxn (s : St) (u c : Nat) (captureId amt cur : String) : St :=
  { s with
    transactions := s.transactions ++ [newSuccessTxn s u c captureId amt cur]
    nextId := s.nextId + 1
    clock := s.clock + 1 }

/-- Step 5 of the grant: reconcile the transaction.  Returns the new state
and the `notification_message_id` of the updated pending row (if any),
which is later passed to the confirmation notification. -/
def reconcileTxn (s : St) (u c : Nat) (captureId : String) (oid : Option String)
    (amt cur : String) : St × Option Nat :=
  match oid with
  | some o =>
    match findPending s.transactions u c o with
    | some row =>
      ({ s with transactions := s.transactions.map (fun t =>
          if t.id = row.id then
            { t with status := TxStatus.success, paymentId := captureId,
                     amount := amt, currency := cur }
          else t) },
       row.notificationMessageId)
    | none => (insertSuccessTxn s u c captureId amt cur, none)
  | none => (insertSuccessTxn s u c captureId amt cur, none)

/-- Steps 4-7 of `handlePaymentCaptureCompleted` once the custom id parsed,
the course exists, its metadata loaded, and the duplicate-grant check
passed: insert the entitlement, reconcile the transaction, invalidate the
user's cache entries, and attempt the confirmation notification
(best-effort: its failure changes nothing else, so the attempt is logged
unconditionally). -/
def grantAccess (env : Env) (ev : PPEvent) (s : St) (u c : Nat)
    (meta : CourseMeta) : St :=
  let courseCurrency := resolvePaypalCurrency env meta.currency
  let s1 := { s with userCourses := s.userCourses ++ [(u, c)] }
  let paymentAmount := amountValueOr ev.resource.amount meta.price
  let paymentCurrency := normalizeCurrency (amountCurrency ev.resource.amount) courseCurrency
  let r := reconcileTxn s1 u c ev.resource.id ev.resource.orderId paymentAmount paymentCurrency
  let s2 := r.1
  let s3 := { s2 with
    cacheKeys := cacheDel (cacheDel s2.cacheKeys (CacheKey.userCourses u)) (CacheKey.user u) }
  { s3 with confirmationAttempts :=
      s3.confirmationAttempts ++ [{ userId := u, title := meta.title, messageId := r.2 }] }

/-- `handlePaymentCaptureCompleted(event)`: parse the custom id (abort on
absence or parse failure), check the course directory and metadata (abort
if missing), run the duplicate-grant check (abort if the entitlement
already exists), then grant. -/
def handlePaymentCaptureCompleted (env : Env) (ev : PPEvent) (s : St) : St :=
  match ev.resource.custom_id with
  | none => s
  | some cid =>
    match parseCustomId cid with
    | none => s
    | some (u, c) =>
      if env.coursesFS.contains c then
        match lookupMeta env c with
        | none => s
        | some meta =>
          if hasEntitlement s u c then s
          else grantAccess env ev s u c meta
      else s

/-! ## Denied handler (`handlePaymentCaptureDenied`) -/

/-- `handlePaymentCaptureDenied(event)`: parse the custom id (abort
silently on absence or parse failure) and insert a `failed` transaction
row.  Amount is `event.resource.amount?.value || 0`; currency is the
event's currency code falling back to the configured PayPal currency.
The inserted `failed` row: -/
def failedTxn (env : Env) (ev : PPEvent) (s : St) (u c : Nat) : Txn :=
  { id := s.nextId, userId := u, courseId := c, paymentId := ev.resource.id,
    amount := amountValueOr ev.resource.amount "0",
    currency := normalizeCurrency (amountCurrency ev.resource.amount)
      (resolvePaypalCurrency env none),
    status := TxStatus.failed, ttype := TxType.purchase,
    notificationMessageId := none, createdAt := s.clock }

def handlePaymentCaptureDenied (env : Env) (ev : PPEvent) (s : St) : St :=
  match ev.resource.custom_id with
  | none => s
  | some cid =>
    match parseCustomId cid with
    | none => s
    | some (u, c) =>
      { s with
        transactions := s.transactions ++ [failedTxn env ev s u c]
        nextId := s.nextId + 1
        clock := s.clock + 1 }

/-! ## Refunded handler (`handlePaymentCaptureRefunded`) -/

/-- `handlePaymentCaptureRefunded(event)`: parse the custom id (abort on
absence or parse failure), `DELETE FROM user_courses WHERE user_id = ? AND
course_id = ?` (no error when absent), insert a `refunded` transaction row
of type `refund`, and invalidate the user's cached course list.
The inserted `refunded` row: -/
def refundTxn (env : Env) (ev : PPEvent) (s : St) (u c : Nat) : Txn :=
  { id := s.nextId, userId := u, courseId := c, paymentId := ev.resource.id,
    amount := amountValueOr ev.resource.amount "0",
    currency := normalizeCurrency (amountCurrency ev.resource.amount)
      (resolvePaypalCurrency env none),
    status := TxStatus.refunded, ttype := TxType.refund,
    notificationMessageId := none, createdAt := s.clock }

def handlePaymentCaptureRefunded (env : Env) (ev : PPEvent) (s : St) : St :=
  match ev.resource.custom_id with
  | none => s
  | some cid =>
    match parseCustomId cid with
    | none => s
    | some (u, c) =>
      { s with
        userCourses := s.userCourses.filter (fun p => p ≠ (u, c))
        transactions := s.transactions ++ [refundTxn env ev s u c]
        cacheKeys := cacheDel s.cacheKeys (CacheKey.userCourses u)
        nextId := s.nextId + 1
        clock := s.clock + 1 }

/-! ## Order-approved handler (`handleCheckoutOrderApproved`) -/

/-- `handleCheckoutOrderApproved(event)`: call
`paypalService.captureOrder(orderId)` (a provider failure is caught and
leaves the state unchanged), then re-enter `handlePaymentCaptureCompleted`
on a synthesized `PAYMENT.CAPTURE.COMPLETED` event whose resource id is the
capture id and whose amount is the captured amount/currency. -/
def handleCheckoutOrderApproved (env : Env) (ev : PPEvent) (s : St) : St :=
  match env.paypalCaptureOrder with
  | none => s
  | some cap =>
    handlePaymentCaptureCompleted env
      { ev with
        event_type := "PAYMENT.CAPTURE.COMPLETED"
        resource := { ev.resource with
          id := cap.1
          amount := some { currency_code := some cap.2.2, value := cap.2.1 } } }
      s

/-! ## Webhook dispatcher (`handlePayPalWebhook`) -/

/-- Server configuration relevant to the dispatcher:
`config.paypal.webhookId` (a string defaulting to `""` when unset, so the
truthiness test is inequality with `""`) and `config.nodeEnv`. -/
structure Config where
  paypalWebhookId : String
  nodeEnv : String
deriving DecidableEq, Repr

/-- The four responses the webhook endpoint can produce. -/
inductive WebhookResp where
  /-- `401 { error: 'Invalid signature' }` -/
  | invalidSignature
  /-- `500 { error: 'Webhook verification not configured' }` -/
  | verificationNotConfigured
  /-- `200 { received: true }` -/
  | receivedTrue
  /-- `200 { received: true, error: 'processed with error' }` -/
  | receivedWithError
deriving DecidableEq, Repr

/-- HTTP status code of a webhook response. -/
def WebhookResp.status : WebhookResp → Nat
  | invalidSignature => 401
  | verificationNotConfigured => 500
  | receivedTrue => 200
  | receivedWithError => 200

/-- Whether the JSON body of a webhook response contains `received: true`. -/
def WebhookResp.receivedTrueBody : WebhookResp → Bool
  | invalidSignature => false
  | verificationNotConfigured => false
  | receivedTrue => true
  | receivedWithError => true

/-- The `switch (event.event_type)` routing table. -/
def routeEvent (env : Env) (ev : PPEvent) (s : St) : St :=
  if ev.event_type = "PAYMENT.CAPTURE.COMPLETED" then
    handlePaymentCaptureCompleted env ev s
  else if ev.event_type = "PAYMENT.CAPTURE.DENIED" then
    handlePaymentCaptureDenied env ev s
  else if ev.event_type = "PAYMENT.CAPTURE.REFUNDED" then
    handlePaymentCaptureRefunded env ev s
  else if ev.event_type = "CHECKOUT.ORDER.APPROVED" then
    handleCheckoutOrderApproved env ev s
  else s

/-- An inbound webhook request: the parsed event body together with the
outcome `paypalService.verifyWebhookSignature` would give for its
signature headers and raw body. -/
structure WebhookReq where
  event : PPEvent
  sigValid : Bool
deriving DecidableEq, Repr

/-- `handlePayPalWebhook(req, res)`.  `fault` injects the possibility that
an awaited routed handler throws (a database or provider rejection):
`some s2` means the routing threw after leaving the world in state `s2`,
which the surrounding `try/catch` answers with
`200 { received: true, error }`.  Verification: with a configured webhook
id an invalid signature is answered `401`; with no webhook id the request
is answered `500` in production and processed unverified otherwise. -/
def handlePayPalWebhook (cfg : Config) (env : Env) (req : WebhookReq)
    (fault : Option St) (s : St) : WebhookResp × St :=
  let dispatch : WebhookResp × St :=
    match fault with
    | some s2 => (WebhookResp.receivedWithError, s2)
    | none => (WebhookResp.receivedTrue, routeEvent env req.event s)
  if cfg.paypalWebhookId ≠ "" then
    if req.sigValid then dispatch
    else (WebhookResp.invalidSignature, s)
  else if cfg.nodeEnv = "production" then
    (WebhookResp.verificationNotConfigured, s)
  else dispatch

/-! ## Order creation (`createPurchaseOrder`) -/

/-- Errors `createPurchaseOrder` can surface through `next(error)`:
`createError(message, status)` for its own checks, or the provider's
failure propagated as-is. -/
inductive PurchaseErr where
  | http (message : String) (status : Nat)
  | provider
deriving DecidableEq, Repr

/-- The success payload `{orderId, approveUrl, price, amount, currency}`. -/
structure PurchaseOk where
  orderId : String
  approveUrl : String
  price : String
  amount : String
  currency : String
deriving DecidableEq, Repr

/-- `createPurchaseOrder(req)`: validate the course id (`!courseId ||
isNaN(courseId)` — modelled by `courseId = 0`, the falsy number), check the
course directory and metadata, reject an existing entitlement, create the
PayPal order (logged in `paypalOrdersCreated`; a provider failure
propagates with no insert), attempt the processing notification
(best-effort), and insert the `pending` transaction row keyed by the
provider's order id. -/
def createPurchaseOrder (env : Env) (userId courseId : Nat) (s : St) :
    Except PurchaseErr PurchaseOk × St :=
  if courseId = 0 then (Except.error (PurchaseErr.http "Invalid course ID" 400), s)
  else if env.coursesFS.contains courseId = false then
    (Except.error (PurchaseErr.http "Course not found" 404), s)
  else
    match lookupMeta env courseId with
    | none => (Except.error (PurchaseErr.http "Course not found" 404), s)
    | some meta =>
      if hasEntitlement s userId courseId then
        (Except.error (PurchaseErr.http "Course already purchased" 400), s)
      else
        -- the resolved currency is passed to `paypalService.createOrder`,
        -- whose behaviour the environment supplies
        let customId := "user_" ++ toString userId ++ "_course_" ++ toString courseId
        match env.paypalCreateOrder with
        | none => (Except.error PurchaseErr.provider, s)
        | some order =>
          let s1 := { s with paypalOrdersCreated := s.paypalOrdersCreated ++ [customId] }
          let notifId := env.notifProcessingResult
          let s2 := { s1 with
            transactions := s1.transactions ++
              [{ id := s1.nextId, userId := userId, courseId := courseId,
                 paymentId := order.orderId, amount := meta.price,
                 currency := order.currency, status := TxStatus.pending,
                 ttype := TxType.purchase, notificationMessageId := notifId,
                 createdAt := s1.clock }]
            nextId := s1.nextId + 1
            clock := s1.clock + 1 }
          (Except.ok { orderId := order.orderId, approveUrl := order.approveUrl,
                       price := meta.price, amount := order.amount,
                       currency := order.currency }, s2)

/-! ## Counting helpers used by the claims -/

/-- Number of entitlement rows for a (user, course) pair. -/
def countEnt (s : St) (u c : Nat) : Nat :=
  (s.userCourses.filter (fun p => p = (u, c))).length

/-- Number of transaction rows for a (user, course) pair in a given status. -/
def countTx (s : St) (u c : Nat) (st : TxStatus) : Nat :=
  (s.transactions.filter (fun t =>
    t.userId = u && t.courseId = c && t.status = st)).length

/-- The fold step used by `findPending` to realize
`ORDER BY created_at DESC LIMIT 1`. -/
def pickLater (acc : Option Txn) (t : Txn) : Option Txn :=
  match acc with
  | none => some t
  | some b => if b.createdAt < t.createdAt then some t else some b

/-- The row-update function of the reconciliation `UPDATE`. -/
def updRow (r : Txn) (cap amt cur : String) (t : Txn) : Txn :=
  if t.id = r.id then
    { t with status := TxStatus.success, paymentId := cap, amount := amt,
             currency := cur }
  else t

/-- The success-row filter of `countTx _ u c TxStatus.success`. -/
def succPred (u c : Nat) (t : Txn) : Bool :=
  t.userId = u && t.courseId = c && t.status = TxStatus.success

/-! ## Concrete fixtures (used by witnesses and counterexamples) -/

/-- Metadata of the example course 7. -/
def metaFix : CourseMeta := { title := "Course 7", price := "19.99", currency := some "usd" }

/-- Example environment: course 7 exists, PayPal order creation succeeds. -/
def envFix : Env :=
  { coursesFS := [7]
    courseMeta := [(7, metaFix)]
    appDefaultCurrency := "USD"
    paypalConfigCurrency := none
    paypalCreateOrder := some { orderId := "ORDER1", approveUrl := "https://approve", amount := "19.99", currency := "USD" }
    paypalCaptureOrder := none
    notifProcessingResult := some 5 }

/-- A pending transaction created by the order orchestrator for user 42, course 7. -/
def pendFix : Txn :=
  { id := 0, userId := 42, courseId := 7, paymentId := "ORDER1", amount := "19.99"
    currency := "USD", status := TxStatus.pending, ttype := TxType.purchase
    notificationMessageId := some 5, createdAt := 0 }

/-- World state right after order creation: pending transaction, no entitlement. -/
def sFix : St :=
  { userCourses := [], transactions := [pendFix], cacheKeys := [CacheKey.userCourses 42]
    confirmationAttempts := [], paypalOrdersCreated := [], nextId := 1, clock := 1 }

/-- A CAPTURE.COMPLETED event for user 42, course 7, capture CAP123, order ORDER1. -/
def evFix : PPEvent :=
  { id := "WH1", event_type := "PAYMENT.CAPTURE.COMPLETED"
    resource := { id := "CAP123", custom_id := some "user_42_course_7"
                  amount := some { currency_code := some "USD", value := "19.99" }
                  orderId := some "ORDER1" } }

/-- Same world but the entitlement is already present while the matching
transaction is still pending (e.g. a crash between entitlement insert and
transaction update, then a webhook retry). -/
def sEntFix : St := { sFix with userCourses := [(42, 7)] }

/-- The same payment as a CAPTURE.REFUNDED event. -/
def evRefFix : PPEvent := { evFix with event_type := "PAYMENT.CAPTURE.REFUNDED" }

/-- The same payment as a CAPTURE.DENIED event. -/
def evDenFix : PPEvent := { evFix with event_type := "PAYMENT.CAPTURE.DENIED" }

/-- An event of a type the router does not handle. -/
def evUnknown : PPEvent := { evFix with event_type := "PAYMENT.SALE.COMPLETED" }

/-- The capture-completed event with no amount field on its resource. -/
def evNoAmtFix : PPEvent :=
  { evFix with resource := { evFix.resource with amount := none } }

/-- Production config with no webhook id configured. -/
def cfgProd : Config := { paypalWebhookId := "", nodeEnv := "production" }

/-- Development config with no webhook id configured. -/
def cfgDev : Config := { paypalWebhookId := "", nodeEnv := "development" }

/-- Production config with a webhook id configured. -/
def cfgSec : Config := { paypalWebhookId := "WHID", nodeEnv := "production" }

/-- A request whose signature verifies. -/
def reqValid : WebhookReq := { event := evFix, sigValid := true }

/-- A request whose signature fails verification. -/
def reqTampered : WebhookReq := { event := evFix, sigValid := false }

/-- A verified request carrying an unhandled event type. -/
def reqUnknown : WebhookReq := { event := evUnknown, sigValid := true }

/-! ## Helper lemmas -/

theorem char_ofNat_upper_fixed (n : Nat) (h1 : 97 ≤ n) (h2 : n ≤ 122) :
    Char.toUpper (Char.ofNat (n - 32)) = Char.ofNat (n - 32) := by
  interval_cases n <;> decide

theorem char_toUpper_idem (c : Char) : c.toUpper.toUpper = c.toUpper := by
  by_cases h : 97 ≤ c.toNat ∧ c.toNat ≤ 122
  · have hc : c.toUpper = Char.ofNat (c.toNat - 32) := by
      simp only [Char.toUpper, if_pos h]
    rw [hc, char_ofNat_upper_fixed c.toNat h.1 h.2]
  · have hc : c.toUpper = c := by
      simp only [Char.toUpper, if_neg h]
    rw [hc, hc]

theorem strUpper_idem (s : String) : strUpper (strUpper s) = strUpper s := by
  simp only [strUpper, List.map_map]
  congr 1
  exact List.map_congr_left (fun c _ => char_toUpper_idem c)

theorem normalizeCurrency_none (fallback : String) :
    normalizeCurrency none fallback = strUpper fallback := rfl

theorem normalizeCurrency_none_resolve (env : Env) (cc : Option String) :
    normalizeCurrency none (resolvePaypalCurrency env cc) =
      resolvePaypalCurrency env cc := by
  rw [normalizeCurrency_none]
  unfold resolvePaypalCurrency normalizeCurrency
  apply strUpper_idem

theorem dropLit_self_append (p r : List Char) : dropLit p (p ++ r) = some r := by
  induction p with
  | nil => rfl
  | cons c ps ih => simp [dropLit, ih]

theorem digitSpan_append_stop (d : List Char) (c : Char) (r : List Char)
    (hd : d.all Char.isDigit = true) (hc : c.isDigit = false) :
    digitSpan (d ++ c :: r) = (d, c :: r) := by
  induction d with
  | nil => simp [digitSpan, hc]
  | cons x xs ih =>
    simp only [List.all_cons, Bool.and_eq_true] at hd
    simp [digitSpan, hd.1, ih hd.2]

theorem digitSpan_all_digits (d : List Char) (hd : d.all Char.isDigit = true) :
    digitSpan d = (d, []) := by
  induction d with
  | nil => rfl
  | cons x xs ih =>
    simp only [List.all_cons, Bool.and_eq_true] at hd
    simp [digitSpan, hd.1, ih hd.2]

theorem matchUserCourseAt_exact (d1 d2 : List Char)
    (h1 : d1 ≠ []) (h2 : d2 ≠ [])
    (hd1 : d1.all Char.isDigit = true) (hd2 : d2.all Char.isDigit = true) :
    matchUserCourseAt ("user_".data ++ (d1 ++ ("_course_".data ++ d2))) =
      some (digitsVal d1, digitsVal d2) := by
  have hu : dropLit "user_".data ("user_".data ++ (d1 ++ ("_course_".data ++ d2))) =
      some (d1 ++ ("_course_".data ++ d2)) := dropLit_self_append _ _
  have hspan1 : digitSpan (d1 ++ ("_course_".data ++ d2)) =
      (d1, "_course_".data ++ d2) := by
    have : ("_course_".data ++ d2) = '_' :: ("course_".data ++ d2) := rfl
    rw [this, digitSpan_append_stop d1 '_' _ hd1 (by decide)]
  have hc : dropLit "_course_".data ("_course_".data ++ d2) = some d2 :=
    dropLit_self_append _ _
  unfold matchUserCourseAt
  rw [hu]
  dsimp only
  rw [hspan1]
  dsimp only
  rw [if_neg h1, hc]
  dsimp only
  rw [digitSpan_all_digits d2 hd2]
  dsimp only
  rw [if_neg h2]

theorem scanUserCourse_head (c : Char) (cs : List Char) (p : Nat × Nat)
    (h : matchUserCourseAt (c :: cs) = some p) :
    scanUserCourse (c :: cs) = some p := by
  simp [scanUserCourse, h]

theorem scanUserCourse_found (cs : List Char) (p : Nat × Nat)
    (h : scanUserCourse cs = some p) :
    ∃ cs2, cs2 <:+ cs ∧ matchUserCourseAt cs2 = some p := by
  induction cs with
  | nil => simp [scanUserCourse] at h
  | cons c cs ih =>
    rw [scanUserCourse] at h
    split at h
    · next q hm =>
        exact ⟨c :: cs, List.suffix_refl _, hm.trans h⟩
    · next hm =>
        obtain ⟨cs2, hsub, hcs2⟩ := ih h
        exact ⟨cs2, hsub.trans (List.suffix_cons c cs), hcs2⟩

theorem parseCustomId_exact (d1 d2 : List Char)
    (h1 : d1 ≠ []) (h2 : d2 ≠ [])
    (hd1 : d1.all Char.isDigit = true) (hd2 : d2.all Char.isDigit = true) :
    parseCustomId ⟨"user_".data ++ (d1 ++ ("_course_".data ++ d2))⟩ =
      some (digitsVal d1, digitsVal d2) := by
  have hshape : "user_".data ++ (d1 ++ ("_course_".data ++ d2)) =
      'u' :: ('s' :: ('e' :: ('r' :: ('_' :: (d1 ++ ("_course_".data ++ d2)))))) := rfl
  unfold parseCustomId
  show scanUserCourse ("user_".data ++ (d1 ++ ("_course_".data ++ d2))) = _
  rw [hshape]
  apply scanUserCourse_head
  rw [← hshape]
  exact matchUserCourseAt_exact d1 d2 h1 h2 hd1 hd2

theorem hcc_noop_no_custom (env : Env) (ev : PPEvent) (s : St)
    (h : ev.resource.custom_id = none) :
    handlePaymentCaptureCompleted env ev s = s := by
  unfold handlePaymentCaptureCompleted
  rw [h]

theorem hcc_noop_bad_parse (env : Env) (ev : PPEvent) (s : St) (cid : String)
    (hc : ev.resource.custom_id = some cid) (hp : parseCustomId cid = none) :
    handlePaymentCaptureCompleted env ev s = s := by
  unfold handlePaymentCaptureCompleted
  rw [hc]
  dsimp only
  rw [hp]

theorem hcc_noop_entitled (env : Env) (ev : PPEvent) (s : St) (cid : String)
    (u c : Nat) (meta : CourseMeta)
    (hc : ev.resource.custom_id = some cid)
    (hp : parseCustomId cid = some (u, c))
    (hfs : env.coursesFS.contains c = true)
    (hmeta : lookupMeta env c = some meta)
    (hent : hasEntitlement s u c = true) :
    handlePaymentCaptureCompleted env ev s = s := by
  unfold handlePaymentCaptureCompleted
  rw [hc]
  dsimp only
  rw [hp]
  dsimp only
  rw [if_pos hfs]
  rw [hmeta]
  dsimp only
  rw [if_pos hent]

theorem hcc_grant (env : Env) (ev : PPEvent) (s : St) (cid : String)
    (u c : Nat) (meta : CourseMeta)
    (hc : ev.resource.custom_id = some cid)
    (hp : parseCustomId cid = some (u, c))
    (hfs : env.coursesFS.contains c = true)
    (hmeta : lookupMeta env c = some meta)
    (hent : hasEntitlement s u c = false) :
    handlePaymentCaptureCompleted env ev s = grantAccess env ev s u c meta := by
  unfold handlePaymentCaptureCompleted
  rw [hc]
  dsimp only
  rw [hp]
  dsimp only
  rw [if_pos hfs]
  rw [hmeta]
  dsimp only
  rw [if_neg (by rw [hent]; exact Bool.false_ne_true)]

theorem reconcileTxn_userCourses (s : St) (u c : Nat) (cap : String)
    (oid : Option String) (amt cur : String) :
    (reconcileTxn s u c cap oid amt cur).1.userCourses = s.userCourses := by
  unfold reconcileTxn
  rcases oid with _ | o
  · rfl
  · dsimp only
    split
    · rfl
    · rfl

theorem reconcileTxn_cacheKeys (s : St) (u c : Nat) (cap : String)
    (oid : Option String) (amt cur : String) :
    (reconcileTxn s u c cap oid amt cur).1.cacheKeys = s.cacheKeys := by
  unfold reconcileTxn
  rcases oid with _ | o
  · rfl
  · dsimp only
    split
    · rfl
    · rfl

theorem reconcileTxn_confirmationAttempts (s : St) (u c : Nat) (cap : String)
    (oid : Option String) (amt cur : String) :
    (reconcileTxn s u c cap oid amt cur).1.confirmationAttempts =
      s.confirmationAttempts := by
  unfold reconcileTxn
  rcases oid with _ | o
  · rfl
  · dsimp only
    split
    · rfl
    · rfl

theorem grantAccess_userCourses (env : Env) (ev : PPEvent) (s : St) (u c : Nat)
    (meta : CourseMeta) :
    (grantAccess env ev s u c meta).userCourses = s.userCourses ++ [(u, c)] := by
  unfold grantAccess
  dsimp only
  rw [reconcileTxn_userCourses]

theorem grantAccess_confirmationAttempts (env : Env) (ev : PPEvent) (s : St)
    (u c : Nat) (meta : CourseMeta) :
    (grantAccess env ev s u c meta).confirmationAttempts =
      s.confirmationAttempts ++
        [{ userId := u, title := meta.title,
           messageId := (reconcileTxn { s with userCourses := s.userCourses ++ [(u, c)] }
             u c ev.resource.id ev.resource.orderId
             (amountValueOr ev.resource.amount meta.price)
             (normalizeCurrency (amountCurrency ev.resource.amount)
               (resolvePaypalCurrency env meta.currency))).2 }] := by
  unfold grantAccess
  dsimp only
  rw [reconcileTxn_confirmationAttempts]

theorem findPending_def (ts : List Txn) (u c : Nat) (oid : String) :
    findPending ts u c oid =
      (ts.filter (fun t => t.userId = u && t.courseId = c &&
        t.status = TxStatus.pending && t.paymentId = oid)).foldl pickLater none := by
  unfold findPending pickLater
  rfl

theorem foldl_pickLater_mem (l : List Txn) (acc : Option Txn) (r : Txn)
    (h : l.foldl pickLater acc = some r) : acc = some r ∨ r ∈ l := by
  induction l generalizing acc with
  | nil => exact Or.inl h
  | cons t ts ih =>
    rcases ih (pickLater acc t) h with hstep | hmem
    · rcases acc with _ | b
      · simp only [pickLater] at hstep
        have : t = r := Option.some_injective _ hstep
        exact Or.inr (this ▸ List.mem_cons_self t ts)
      · simp only [pickLater] at hstep
        by_cases lt : b.createdAt < t.createdAt
        · rw [if_pos lt] at hstep
          have : t = r := Option.some_injective _ hstep
          exact Or.inr (this ▸ List.mem_cons_self t ts)
        · rw [if_neg lt] at hstep
          exact Or.inl hstep
    · exact Or.inr (List.mem_cons_of_mem t hmem)

theorem findPending_some (ts : List Txn) (u c : Nat) (oid : String) (r : Txn)
    (h : findPending ts u c oid = some r) :
    r ∈ ts ∧ r.userId = u ∧ r.courseId = c ∧ r.status = TxStatus.pending ∧
      r.paymentId = oid := by
  rw [findPending_def] at h
  rcases foldl_pickLater_mem _ _ _ h with habs | hmem
  · exact Option.noConfusion habs
  · have := List.mem_filter.mp hmem
    refine ⟨this.1, ?_⟩
    have hp := this.2
    simp only [Bool.and_eq_true, decide_eq_true_eq] at hp
    exact ⟨hp.1.1.1, hp.1.1.2, hp.1.2, hp.2⟩

theorem length_filter_updRow (ts : List Txn) (r : Txn) (cap amt cur : String)
    (u c : Nat) (hmem : r ∈ ts) (hnodup : (ts.map Txn.id).Nodup)
    (hu : r.userId = u) (hc2 : r.courseId = c)
    (hst : r.status = TxStatus.pending) :
    ((ts.map (updRow r cap amt cur)).filter (succPred u c)).length =
      ((ts.filter (succPred u c)).length) + 1 := by
  induction ts with
  | nil => cases hmem
  | cons t ts ih =>
    rw [List.map_cons, List.nodup_cons] at hnodup
    rw [List.map_cons]
    rcases List.mem_cons.mp hmem with heq | hmem2
    · subst heq
      have hts : ts.map (updRow r cap amt cur) = ts := by
        conv_rhs => rw [← List.map_id ts]
        apply List.map_congr_left
        intro x hx
        show updRow r cap amt cur x = x
        unfold updRow
        rw [if_neg]
        intro hid
        exact hnodup.1 (hid ▸ List.mem_map_of_mem Txn.id hx)
      have hpnew : succPred u c (updRow r cap amt cur r) = true := by
        unfold updRow
        rw [if_pos rfl]
        unfold succPred
        simp [hu, hc2]
      have hpold : succPred u c r = false := by
        unfold succPred
        simp [hu, hc2, hst]
      rw [hts, List.filter_cons, List.filter_cons, hpnew, hpold]
      simp
    · have hne : t.id ≠ r.id := by
        intro hid
        exact hnodup.1 (hid ▸ List.mem_map_of_mem Txn.id hmem2)
      have hhead : updRow r cap amt cur t = t := by
        unfold updRow
        rw [if_neg hne]
      rw [hhead, List.filter_cons, List.filter_cons]
      rcases hpt : succPred u c t with _ | _
      · rw [if_neg Bool.false_ne_true, if_neg Bool.false_ne_true]
        exact ih hmem2 hnodup.2
      · rw [if_pos rfl, if_pos rfl,
            List.length_cons, List.length_cons, ih hmem2 hnodup.2]

theorem countTx_insertSuccess (s : St) (u c : Nat) (cap amt cur : String) :
    countTx (insertSuccessTxn s u c cap amt cur) u c TxStatus.success =
      countTx s u c TxStatus.success + 1 := by
  unfold countTx insertSuccessTxn newSuccessTxn
  simp [List.filter_append, List.filter_cons]

theorem reconcileTxn_countTx (s : St) (u c : Nat) (cap : String)
    (oid : Option String) (amt cur : String)
    (hnodup : (s.transactions.map Txn.id).Nodup) :
    countTx (reconcileTxn s u c cap oid amt cur).1 u c TxStatus.success =
      countTx s u c TxStatus.success + 1 := by
  unfold reconcileTxn
  rcases oid with _ | o
  · exact countTx_insertSuccess s u c cap amt cur
  · dsimp only
    split
    · next row hf =>
        obtain ⟨hmem, hu, hc2, hst, _⟩ := findPending_some _ _ _ _ _ hf
        show countTx { s with transactions := s.transactions.map (fun t =>
          if t.id = row.id then
            { t with status := TxStatus.success, paymentId := cap, amount := amt,
                     currency := cur }
          else t) } u c TxStatus.success = _
        unfold countTx
        exact length_filter_updRow s.transactions row cap amt cur u c hmem hnodup
          hu hc2 hst
    · next hf => exact countTx_insertSuccess s u c cap amt cur

theorem countEnt_zero_not_has (s : St) (u c : Nat) (h : countEnt s u c = 0) :
    hasEntitlement s u c = false := by
  unfold countEnt at h
  unfold hasEntitlement
  rw [List.length_eq_zero] at h
  rcases hb : s.userCourses.contains (u, c) with _ | _
  · rfl
  · exfalso
    have hmem : (u, c) ∈ s.userCourses := List.mem_of_elem_eq_true hb
    have : (u, c) ∈ s.userCourses.filter (fun p => p = (u, c)) :=
      List.mem_filter.mpr ⟨hmem, by simp⟩
    rw [h] at this
    cases this

theorem countEnt_grant (env : Env) (ev : PPEvent) (s : St) (u c : Nat)
    (meta : CourseMeta) :
    countEnt (grantAccess env ev s u c meta) u c = countEnt s u c + 1 := by
  unfold countEnt
  rw [grantAccess_userCourses]
  simp [List.filter_append]

theorem hasEntitlement_grant (env : Env) (ev : PPEvent) (s : St) (u c : Nat)
    (meta : CourseMeta) :
    hasEntitlement (grantAccess env ev s u c meta) u c = true := by
  unfold hasEntitlement
  rw [grantAccess_userCourses]
  exact List.elem_eq_true_of_mem
    (List.mem_append_right _ (List.mem_singleton.mpr rfl))

theorem grantAccess_countTx (env : Env) (ev : PPEvent) (s : St) (u c : Nat)
    (meta : CourseMeta) (hnodup : (s.transactions.map Txn.id).Nodup) :
    countTx (grantAccess env ev s u c meta) u c TxStatus.success =
      countTx s u c TxStatus.success + 1 := by
  exact reconcileTxn_countTx { s with userCourses := s.userCourses ++ [(u, c)] }
    u c ev.resource.id ev.resource.orderId
    (amountValueOr ev.resource.amount meta.price)
    (normalizeCurrency (amountCurrency ev.resource.amount)
      (resolvePaypalCurrency env meta.currency)) hnodup

theorem grantAccess_attempts_len (env : Env) (ev : PPEvent) (s : St) (u c : Nat)
    (meta : CourseMeta) :
    (grantAccess env ev s u c meta).confirmationAttempts.length =
      s.confirmationAttempts.length + 1 := by
  rw [grantAccess_confirmationAttempts]
  simp

/-- C1: delivering the same CAPTURE.COMPLETED event twice results in exactly
one entitlement row for the (user, course) pair parsed from its custom id,
exactly one `success` transaction row, and exactly one purchase-confirmation
notification attempt; the second delivery is a complete no-op (grants
nothing, sends no notification). -/
theorem capture_completed_idempotent
    (env : Env) (ev : PPEvent) (s : St) (cid : String) (u c : Nat)
    (meta : CourseMeta)
    (hc : ev.resource.custom_id = some cid)
    (hp : parseCustomId cid = some (u, c))
    (hfs : env.coursesFS.contains c = true)
    (hmeta : lookupMeta env c = some meta)
    (hent : countEnt s u c = 0)
    (hsucc : countTx s u c TxStatus.success = 0)
    (hnodup : (s.transactions.map Txn.id).Nodup) :
    countEnt (handlePaymentCaptureCompleted env ev
      (handlePaymentCaptureCompleted env ev s)) u c = 1 ∧
    countTx (handlePaymentCaptureCompleted env ev
      (handlePaymentCaptureCompleted env ev s)) u c TxStatus.success = 1 ∧
    (handlePaymentCaptureCompleted env ev
      (handlePaymentCaptureCompleted env ev s)).confirmationAttempts.length =
      s.confirmationAttempts.length + 1 ∧
    handlePaymentCaptureCompleted env ev (handlePaymentCaptureCompleted env ev s) =
      handlePaymentCaptureCompleted env ev s := by
  have hent' : hasEntitlement s u c = false := countEnt_zero_not_has s u c hent
  have hg : handlePaymentCaptureCompleted env ev s = grantAccess env ev s u c meta :=
    hcc_grant env ev s cid u c meta hc hp hfs hmeta hent'
  have hs2 : handlePaymentCaptureCompleted env ev
      (handlePaymentCaptureCompleted env ev s) =
      handlePaymentCaptureCompleted env ev s := by
    rw [hg]
    exact hcc_noop_entitled env ev _ cid u c meta hc hp hfs hmeta
      (hasEntitlement_grant env ev s u c meta)
  refine ⟨?_, ?_, ?_, hs2⟩
  · rw [hs2, hg, countEnt_grant, hent]
  · rw [hs2, hg, grantAccess_countTx env ev s u c meta hnodup, hsucc]
  · rw [hs2, hg, grantAccess_attempts_len]

/-- C1 witness: the concrete double delivery for user 42, course 7. -/
theorem capture_completed_idempotent_witness :
    countEnt (handlePaymentCaptureCompleted envFix evFix
      (handlePaymentCaptureCompleted envFix evFix sFix)) 42 7 = 1 ∧
    countTx (handlePaymentCaptureCompleted envFix evFix
      (handlePaymentCaptureCompleted envFix evFix sFix)) 42 7 TxStatus.success = 1 ∧
    (handlePaymentCaptureCompleted envFix evFix
      (handlePaymentCaptureCompleted envFix evFix sFix)).confirmationAttempts.length =
      sFix.confirmationAttempts.length + 1 ∧
    handlePaymentCaptureCompleted envFix evFix
      (handlePaymentCaptureCompleted envFix evFix sFix) =
      handlePaymentCaptureCompleted envFix evFix sFix :=
  capture_completed_idempotent envFix evFix sFix "user_42_course_7" 42 7 metaFix
    (by decide) (by decide) (by decide) (by decide) (by decide) (by decide)
    (by decide)

/-- C2 counterexample: the parse is an unanchored search, so a string that is
NOT of the exact form `user_<digits>_course_<digits>` (here with a stray
leading `x`) is not rejected: it parses to (1, 2), and an event carrying
such a custom id is processed rather than dropped (here it grants). -/
theorem parse_custom_id_cex :
    specExactCustomId "xuser_1_course_2" = false ∧
    parseCustomId "xuser_1_course_2" = some (1, 2) ∧
    handlePaymentCaptureCompleted envFix
      { evFix with resource := { evFix.resource with
          custom_id := some "xuser_42_course_7" } } sFix ≠ sFix := by
  refine ⟨by decide, by decide, by decide⟩

/-- C2 (amended): every string of the exact form
`user_<digits>_course_<digits>` parses to exactly that (user id, course id)
pair; the parse is an unanchored leftmost search, so a string is accepted
exactly when the pattern occurs at some position (and a custom id that is
absent or in which the search fails makes the capture-completed handler
drop the event with no state change). -/
theorem parse_custom_id_amended :
    (∀ d1 d2 : List Char, d1 ≠ [] → d2 ≠ [] →
        d1.all Char.isDigit = true → d2.all Char.isDigit = true →
        parseCustomId ⟨"user_".data ++ (d1 ++ ("_course_".data ++ d2))⟩ =
          some (digitsVal d1, digitsVal d2)) ∧
    (∀ (s : String) (p : Nat × Nat), parseCustomId s = some p →
        ∃ cs, cs <:+ s.data ∧ matchUserCourseAt cs = some p) ∧
    (∀ (env : Env) (ev : PPEvent) (st : St), ev.resource.custom_id = none →
        handlePaymentCaptureCompleted env ev st = st) ∧
    (∀ (env : Env) (ev : PPEvent) (st : St) (cid : String),
        ev.resource.custom_id = some cid → parseCustomId cid = none →
        handlePaymentCaptureCompleted env ev st = st) := by
  refine ⟨?_, ?_, ?_, ?_⟩
  · intro d1 d2 h1 h2 hd1 hd2
    exact parseCustomId_exact d1 d2 h1 h2 hd1 hd2
  · intro s p h
    exact scanUserCourse_found s.data p h
  · intro env ev st h
    exact hcc_noop_no_custom env ev st h
  · intro env ev st cid h hp
    exact hcc_noop_bad_parse env ev st cid h hp

/-- C2 witness: the exact-form string `user_42_course_7` parses to (42, 7). -/
theorem parse_custom_id_amended_witness :
    parseCustomId ⟨"user_".data ++ (['4', '2'] ++ ("_course_".data ++ ['7']))⟩ =
      some (42, 7) :=
  parse_custom_id_amended.1 ['4', '2'] ['7']
    (by decide) (by decide) (by decide) (by decide)

theorem foldl_pickLater_isSome (l : List Txn) (b : Txn) :
    ∃ r, l.foldl pickLater (some b) = some r := by
  induction l generalizing b with
  | nil => exact ⟨b, rfl⟩
  | cons t ts ih =>
    show ∃ r, ts.foldl pickLater (pickLater (some b) t) = some r
    by_cases lt : b.createdAt < t.createdAt
    · rw [show pickLater (some b) t = some t from by
        simp only [pickLater]; rw [if_pos lt]]
      exact ih t
    · rw [show pickLater (some b) t = some b from by
        simp only [pickLater]; rw [if_neg lt]]
      exact ih b

theorem findPending_isSome_of_mem (ts : List Txn) (u c : Nat) (oid : String)
    (t : Txn) (hmem : t ∈ ts) (h1 : t.userId = u) (h2 : t.courseId = c)
    (h3 : t.status = TxStatus.pending) (h4 : t.paymentId = oid) :
    ∃ row, findPending ts u c oid = some row := by
  rw [findPending_def]
  have hf : t ∈ ts.filter (fun x => x.userId = u && x.courseId = c &&
      x.status = TxStatus.pending && x.paymentId = oid) := by
    refine List.mem_filter.mpr ⟨hmem, ?_⟩
    simp [h1, h2, h3, h4]
  rcases hL : ts.filter (fun x => x.userId = u && x.courseId = c &&
      x.status = TxStatus.pending && x.paymentId = oid) with _ | ⟨a, as⟩
  · rw [hL] at hf
    cases hf
  · rw [hL]
    exact foldl_pickLater_isSome as a

theorem reconcileTxn_none (s : St) (u c : Nat) (cap amt cur : String) :
    reconcileTxn s u c cap none amt cur =
      (insertSuccessTxn s u c cap amt cur, none) := rfl

theorem reconcileTxn_found (s : St) (u c : Nat) (cap : String) (o : String)
    (amt cur : String) (row : Txn)
    (hf : findPending s.transactions u c o = some row) :
    reconcileTxn s u c cap (some o) amt cur =
      ({ s with transactions := s.transactions.map (updRow row cap amt cur) },
        row.notificationMessageId) := by
  unfold reconcileTxn
  dsimp only
  rw [hf]
  rfl

theorem reconcileTxn_notfound (s : St) (u c : Nat) (cap : String) (o : String)
    (amt cur : String)
    (hf : findPending s.transactions u c o = none) :
    reconcileTxn s u c cap (some o) amt cur =
      (insertSuccessTxn s u c cap amt cur, none) := by
  unfold reconcileTxn
  dsimp only
  rw [hf]

theorem grantAccess_transactions (env : Env) (ev : PPEvent) (s : St)
    (u c : Nat) (meta : CourseMeta) :
    (grantAccess env ev s u c meta).transactions =
      (reconcileTxn { s with userCourses := s.userCourses ++ [(u, c)] } u c
        ev.resource.id ev.resource.orderId
        (amountValueOr ev.resource.amount meta.price)
        (normalizeCurrency (amountCurrency ev.resource.amount)
          (resolvePaypalCurrency env meta.currency))).1.transactions := rfl

/-- C3: when the grant path is taken, the transaction reconciliation either
updates the one matching pending row in place (same table length, the row
rewritten to `success` with the capture id and the computed amount and
currency) or, when no order id or no matching pending row exists, appends
exactly one new `success` row. -/
theorem capture_completed_reconciliation
    (env : Env) (ev : PPEvent) (s : St) (cid : String) (u c : Nat)
    (meta : CourseMeta)
    (hc : ev.resource.custom_id = some cid)
    (hp : parseCustomId cid = some (u, c))
    (hfs : env.coursesFS.contains c = true)
    (hmeta : lookupMeta env c = some meta)
    (hent : hasEntitlement s u c = false) :
    (∀ o row, ev.resource.orderId = some o →
       findPending s.transactions u c o = some row →
       (handlePaymentCaptureCompleted env ev s).transactions =
         s.transactions.map (updRow row ev.resource.id
           (amountValueOr ev.resource.amount meta.price)
           (normalizeCurrency (amountCurrency ev.resource.amount)
             (resolvePaypalCurrency env meta.currency))) ∧
       (handlePaymentCaptureCompleted env ev s).transactions.length =
         s.transactions.length) ∧
    (∀ o, ev.resource.orderId = some o →
       findPending s.transactions u c o = none →
       (handlePaymentCaptureCompleted env ev s).transactions =
         s.transactions ++ [newSuccessTxn s u c ev.resource.id
           (amountValueOr ev.resource.amount meta.price)
           (normalizeCurrency (amountCurrency ev.resource.amount)
             (resolvePaypalCurrency env meta.currency))]) ∧
    (ev.resource.orderId = none →
       (handlePaymentCaptureCompleted env ev s).transactions =
         s.transactions ++ [newSuccessTxn s u c ev.resource.id
           (amountValueOr ev.resource.amount meta.price)
           (normalizeCurrency (amountCurrency ev.resource.amount)
             (resolvePaypalCurrency env meta.currency))]) ∧
    (∀ o t, ev.resource.orderId = some o → t ∈ s.transactions →
       t.userId = u → t.courseId = c → t.status = TxStatus.pending →
       t.paymentId = o → ∃ row, findPending s.transactions u c o = some row) := by
  have hg : handlePaymentCaptureCompleted env ev s = grantAccess env ev s u c meta :=
    hcc_grant env ev s cid u c meta hc hp hfs hmeta hent
  refine ⟨?_, ?_, ?_, ?_⟩
  · intro o row ho hf
    rw [hg, grantAccess_transactions, ho,
      reconcileTxn_found { s with userCourses := s.userCourses ++ [(u, c)] }
        u c ev.resource.id o (amountValueOr ev.resource.amount meta.price)
        (normalizeCurrency (amountCurrency ev.resource.amount)
          (resolvePaypalCurrency env meta.currency)) row hf]
    exact ⟨rfl, by simp⟩
  · intro o ho hf
    rw [hg, grantAccess_transactions, ho,
      reconcileTxn_notfound { s with userCourses := s.userCourses ++ [(u, c)] }
        u c ev.resource.id o (amountValueOr ev.resource.amount meta.price)
        (normalizeCurrency (amountCurrency ev.resource.amount)
          (resolvePaypalCurrency env meta.currency)) hf]
    rfl
  · intro ho
    rw [hg, grantAccess_transactions, ho, reconcileTxn_none]
    rfl
  · intro o t ho hmem h1 h2 h3 h4
    exact findPending_isSome_of_mem s.transactions u c o t hmem h1 h2 h3 h4

/-- C3 witness: the concrete order→capture reconciliation for ORDER1/CAP123:
the pending row itself transitions, no row is added. -/
theorem capture_completed_reconciliation_witness :
    (handlePaymentCaptureCompleted envFix evFix sFix).transactions =
      sFix.transactions.map (updRow pendFix "CAP123" "19.99" "USD") ∧
    (handlePaymentCaptureCompleted envFix evFix sFix).transactions.length =
      sFix.transactions.length :=
  (capture_completed_reconciliation envFix evFix sFix "user_42_course_7" 42 7
    metaFix (by decide) (by decide) (by decide) (by decide) (by decide)).1
    "ORDER1" pendFix (by decide) (by decide)

/-- C4 counterexample: entitlement (42, 7) already exists and the matching
transaction is still `pending` for the event's order id, yet the handler
returns with NO state change: it does not attempt the transaction
reconciliation, leaving the row pending. -/
theorem capture_completed_stuck_pending_cex :
    handlePaymentCaptureCompleted envFix evFix sEntFix = sEntFix ∧
    evFix.resource.orderId = some "ORDER1" ∧
    findPending sEntFix.transactions 42 7 "ORDER1" = some pendFix ∧
    pendFix.status = TxStatus.pending := by
  refine ⟨by decide, by decide, by decide, by decide⟩

/-- C4 (amended): when the (user, course) entitlement already exists, the
handler aborts at the duplicate-grant check with no state change at all —
it does NOT attempt the transaction reconciliation, so a matching `pending`
transaction remains pending. -/
theorem capture_completed_skip_when_entitled
    (env : Env) (ev : PPEvent) (s : St) (cid : String) (u c : Nat)
    (meta : CourseMeta)
    (hc : ev.resource.custom_id = some cid)
    (hp : parseCustomId cid = some (u, c))
    (hfs : env.coursesFS.contains c = true)
    (hmeta : lookupMeta env c = some meta)
    (hent : hasEntitlement s u c = true) :
    handlePaymentCaptureCompleted env ev s = s ∧
    countTx (handlePaymentCaptureCompleted env ev s) u c TxStatus.pending =
      countTx s u c TxStatus.pending := by
  have h := hcc_noop_entitled env ev s cid u c meta hc hp hfs hmeta hent
  exact ⟨h, by rw [h]⟩

/-- C4 witness: the concrete retry with the entitlement present. -/
theorem capture_completed_skip_when_entitled_witness :
    handlePaymentCaptureCompleted envFix evFix sEntFix = sEntFix ∧
    countTx (handlePaymentCaptureCompleted envFix evFix sEntFix) 42 7
      TxStatus.pending = countTx sEntFix 42 7 TxStatus.pending :=
  capture_completed_skip_when_entitled envFix evFix sEntFix "user_42_course_7"
    42 7 metaFix (by decide) (by decide) (by decide) (by decide) (by decide)

/-- C10: when the event's resource carries no amount, the success transaction
recorded by the grant uses the course's configured metadata price as amount
and the resolved course currency as currency. -/
theorem capture_completed_amount_fallback
    (env : Env) (ev : PPEvent) (s : St) (cid : String) (u c : Nat)
    (meta : CourseMeta)
    (hc : ev.resource.custom_id = some cid)
    (hp : parseCustomId cid = some (u, c))
    (hfs : env.coursesFS.contains c = true)
    (hmeta : lookupMeta env c = some meta)
    (hent : hasEntitlement s u c = false)
    (hamt : ev.resource.amount = none) :
    amountValueOr ev.resource.amount meta.price = meta.price ∧
    normalizeCurrency (amountCurrency ev.resource.amount)
        (resolvePaypalCurrency env meta.currency) =
      resolvePaypalCurrency env meta.currency ∧
    ∃ t ∈ (handlePaymentCaptureCompleted env ev s).transactions,
      t.paymentId = ev.resource.id ∧ t.status = TxStatus.success ∧
      t.amount = meta.price ∧
      t.currency = resolvePaypalCurrency env meta.currency := by
  have hamt1 : amountValueOr ev.resource.amount meta.price = meta.price := by
    rw [hamt]
    rfl
  have hcur1 : normalizeCurrency (amountCurrency ev.resource.amount)
      (resolvePaypalCurrency env meta.currency) =
      resolvePaypalCurrency env meta.currency := by
    rw [hamt]
    exact normalizeCurrency_none_resolve env meta.currency
  have hg : handlePaymentCaptureCompleted env ev s = grantAccess env ev s u c meta :=
    hcc_grant env ev s cid u c meta hc hp hfs hmeta hent
  refine ⟨hamt1, hcur1, ?_⟩
  rw [hg, grantAccess_transactions]
  rcases ho : ev.resource.orderId with _ | o
  · rw [reconcileTxn_none]
    exact ⟨newSuccessTxn { s with userCourses := s.userCourses ++ [(u, c)] } u c
      ev.resource.id (amountValueOr ev.resource.amount meta.price)
      (normalizeCurrency (amountCurrency ev.resource.amount)
        (resolvePaypalCurrency env meta.currency)),
      List.mem_append_right _ (List.mem_singleton.mpr rfl),
      rfl, rfl, hamt1, hcur1⟩
  · rcases hf : findPending s.transactions u c o with _ | row
    · rw [reconcileTxn_notfound { s with userCourses := s.userCourses ++ [(u, c)] }
        u c ev.resource.id o (amountValueOr ev.resource.amount meta.price)
        (normalizeCurrency (amountCurrency ev.resource.amount)
          (resolvePaypalCurrency env meta.currency)) hf]
      exact ⟨newSuccessTxn { s with userCourses := s.userCourses ++ [(u, c)] } u c
        ev.resource.id (amountValueOr ev.resource.amount meta.price)
        (normalizeCurrency (amountCurrency ev.resource.amount)
          (resolvePaypalCurrency env meta.currency)),
        List.mem_append_right _ (List.mem_singleton.mpr rfl),
        rfl, rfl, hamt1, hcur1⟩
    · rw [reconcileTxn_found { s with userCourses := s.userCourses ++ [(u, c)] }
        u c ev.resource.id o (amountValueOr ev.resource.amount meta.price)
        (normalizeCurrency (amountCurrency ev.resource.amount)
          (resolvePaypalCurrency env meta.currency)) row hf]
      obtain ⟨hmem, _, _, _, _⟩ := findPending_some _ _ _ _ _ hf
      refine ⟨updRow row ev.resource.id
        (amountValueOr ev.resource.amount meta.price)
        (normalizeCurrency (amountCurrency ev.resource.amount)
          (resolvePaypalCurrency env meta.currency)) row,
        List.mem_map_of_mem _ hmem, ?_, ?_, ?_, ?_⟩
      · simp [updRow]
      · simp [updRow]
      · simp [updRow, hamt1]
      · simp [updRow, hcur1]

/-- C10 witness: the concrete amount-less capture event for course 7 records
price 19.99 and the resolved course currency. -/
theorem capture_completed_amount_fallback_witness :
    ∃ t ∈ (handlePaymentCaptureCompleted envFix evNoAmtFix sFix).transactions,
      t.paymentId = evNoAmtFix.resource.id ∧ t.status = TxStatus.success ∧
      t.amount = metaFix.price ∧
      t.currency = resolvePaypalCurrency envFix metaFix.currency :=
  (capture_completed_amount_fallback envFix evNoAmtFix sFix "user_42_course_7"
    42 7 metaFix (by decide) (by decide) (by decide) (by decide) (by decide)
    (by decide)).2.2

theorem hpcrf_eq (env : Env) (ev : PPEvent) (s : St) (cid : String) (u c : Nat)
    (hc : ev.resource.custom_id = some cid)
    (hp : parseCustomId cid = some (u, c)) :
    handlePaymentCaptureRefunded env ev s =
      { s with
        userCourses := s.userCourses.filter (fun p => p ≠ (u, c))
        transactions := s.transactions ++ [refundTxn env ev s u c]
        cacheKeys := cacheDel s.cacheKeys (CacheKey.userCourses u)
        nextId := s.nextId + 1
        clock := s.clock + 1 } := by
  unfold handlePaymentCaptureRefunded
  rw [hc]
  dsimp only
  rw [hp]

theorem not_mem_filter_ne (l : List (Nat × Nat)) (u c : Nat) :
    (u, c) ∉ l.filter (fun p => p ≠ (u, c)) := by
  intro hmem
  have := (List.mem_filter.mp hmem).2
  simp at this

theorem contains_eq_false_of_not_mem (l : List (Nat × Nat)) (x : Nat × Nat)
    (h : x ∉ l) : l.contains x = false := by
  rcases hb : l.contains x with _ | _
  · rfl
  · exact absurd (List.mem_of_elem_eq_true hb) h

theorem refund_countTx_step (env : Env) (ev : PPEvent) (s : St) (cid : String)
    (u c : Nat)
    (hc : ev.resource.custom_id = some cid)
    (hp : parseCustomId cid = some (u, c)) :
    countTx (handlePaymentCaptureRefunded env ev s) u c TxStatus.refunded =
      countTx s u c TxStatus.refunded + 1 := by
  rw [hpcrf_eq env ev s cid u c hc hp]
  unfold countTx refundTxn
  dsimp only
  rw [List.filter_append]
  simp

theorem refund_hasEnt_false (env : Env) (ev : PPEvent) (s : St) (cid : String)
    (u c : Nat)
    (hc : ev.resource.custom_id = some cid)
    (hp : parseCustomId cid = some (u, c)) :
    hasEntitlement (handlePaymentCaptureRefunded env ev s) u c = false := by
  rw [hpcrf_eq env ev s cid u c hc hp]
  unfold hasEntitlement
  dsimp only
  exact contains_eq_false_of_not_mem _ _ (not_mem_filter_ne _ u c)

/-- C7: a CAPTURE.REFUNDED event with a parseable custom id deletes the
entitlement (succeeding when it is absent), inserts one `refunded`
transaction row, and invalidates the user's cached course list; a second
identical refund leaves the entitlement absent and inserts another
`refunded` row. -/
theorem refund_handler_spec
    (env : Env) (ev : PPEvent) (s : St) (cid : String) (u c : Nat)
    (hc : ev.resource.custom_id = some cid)
    (hp : parseCustomId cid = some (u, c)) :
    hasEntitlement (handlePaymentCaptureRefunded env ev s) u c = false ∧
    (∀ p, p ∈ (handlePaymentCaptureRefunded env ev s).userCourses ↔
       (p ∈ s.userCourses ∧ p ≠ (u, c))) ∧
    countTx (handlePaymentCaptureRefunded env ev s) u c TxStatus.refunded =
      countTx s u c TxStatus.refunded + 1 ∧
    CacheKey.userCourses u ∉ (handlePaymentCaptureRefunded env ev s).cacheKeys ∧
    hasEntitlement (handlePaymentCaptureRefunded env ev
      (handlePaymentCaptureRefunded env ev s)) u c = false ∧
    countTx (handlePaymentCaptureRefunded env ev
      (handlePaymentCaptureRefunded env ev s)) u c TxStatus.refunded =
      countTx s u c TxStatus.refunded + 2 := by
  refine ⟨refund_hasEnt_false env ev s cid u c hc hp, ?_, ?_, ?_,
    refund_hasEnt_false env ev _ cid u c hc hp, ?_⟩
  · intro p
    rw [hpcrf_eq env ev s cid u c hc hp]
    simp [List.mem_filter]
  · exact refund_countTx_step env ev s cid u c hc hp
  · rw [hpcrf_eq env ev s cid u c hc hp]
    intro hmem
    have := (List.mem_filter.mp hmem).2
    simp at this
  · rw [refund_countTx_step env ev _ cid u c hc hp,
      refund_countTx_step env ev s cid u c hc hp]

/-- C7 witness: concrete refund after grant for user 42, course 7, delivered
twice. -/
theorem refund_handler_spec_witness :
    hasEntitlement (handlePaymentCaptureRefunded envFix evRefFix sEntFix) 42 7 =
      false ∧
    countTx (handlePaymentCaptureRefunded envFix evRefFix sEntFix) 42 7
      TxStatus.refunded = countTx sEntFix 42 7 TxStatus.refunded + 1 ∧
    countTx (handlePaymentCaptureRefunded envFix evRefFix
      (handlePaymentCaptureRefunded envFix evRefFix sEntFix)) 42 7
      TxStatus.refunded = countTx sEntFix 42 7 TxStatus.refunded + 2 := by
  have h := refund_handler_spec envFix evRefFix sEntFix "user_42_course_7" 42 7
    (by decide) (by decide)
  exact ⟨h.1, h.2.2.1, h.2.2.2.2.2⟩

theorem hpcd_eq (env : Env) (ev : PPEvent) (s : St) (cid : String) (u c : Nat)
    (hc : ev.resource.custom_id = some cid)
    (hp : parseCustomId cid = some (u, c)) :
    handlePaymentCaptureDenied env ev s =
      { s with
        transactions := s.transactions ++ [failedTxn env ev s u c]
        nextId := s.nextId + 1
        clock := s.clock + 1 } := by
  unfold handlePaymentCaptureDenied
  rw [hc]
  dsimp only
  rw [hp]

theorem hpcd_noop_no_custom (env : Env) (ev : PPEvent) (s : St)
    (h : ev.resource.custom_id = none) :
    handlePaymentCaptureDenied env ev s = s := by
  unfold handlePaymentCaptureDenied
  rw [h]

theorem hpcd_noop_bad_parse (env : Env) (ev : PPEvent) (s : St) (cid : String)
    (hc : ev.resource.custom_id = some cid) (hp : parseCustomId cid = none) :
    handlePaymentCaptureDenied env ev s = s := by
  unfold handlePaymentCaptureDenied
  rw [hc]
  dsimp only
  rw [hp]

/-- C8: a CAPTURE.DENIED event never modifies the entitlement table; with a
parseable custom id it appends exactly one `failed` transaction row and
changes nothing else (cache, notification log, provider-order log all
untouched); with an absent or unparseable custom id it changes nothing at
all. -/
theorem denied_handler_spec (env : Env) (ev : PPEvent) (s : St) :
    (handlePaymentCaptureDenied env ev s).userCourses = s.userCourses ∧
    (∀ cid u c, ev.resource.custom_id = some cid →
       parseCustomId cid = some (u, c) →
       (handlePaymentCaptureDenied env ev s).transactions =
         s.transactions ++ [failedTxn env ev s u c] ∧
       (failedTxn env ev s u c).status = TxStatus.failed ∧
       countTx (handlePaymentCaptureDenied env ev s) u c TxStatus.failed =
         countTx s u c TxStatus.failed + 1 ∧
       (handlePaymentCaptureDenied env ev s).cacheKeys = s.cacheKeys ∧
       (handlePaymentCaptureDenied env ev s).confirmationAttempts =
         s.confirmationAttempts ∧
       (handlePaymentCaptureDenied env ev s).paypalOrdersCreated =
         s.paypalOrdersCreated) ∧
    (ev.resource.custom_id = none → handlePaymentCaptureDenied env ev s = s) ∧
    (∀ cid, ev.resource.custom_id = some cid → parseCustomId cid = none →
       handlePaymentCaptureDenied env ev s = s) := by
  refine ⟨?_, ?_, ?_, ?_⟩
  · rcases hcu : ev.resource.custom_id with _ | cid
    · rw [hpcd_noop_no_custom env ev s hcu]
    · rcases hpa : parseCustomId cid with _ | p
      · rw [hpcd_noop_bad_parse env ev s cid hcu hpa]
      · rw [hpcd_eq env ev s cid p.1 p.2 hcu (by rw [hpa])]
  · intro cid u c hcu hpa
    refine ⟨?_, rfl, ?_, ?_, ?_, ?_⟩
    · rw [hpcd_eq env ev s cid u c hcu hpa]
    · rw [hpcd_eq env ev s cid u c hcu hpa]
      unfold countTx failedTxn
      dsimp only
      rw [List.filter_append]
      simp
    · rw [hpcd_eq env ev s cid u c hcu hpa]
    · rw [hpcd_eq env ev s cid u c hcu hpa]
    · rw [hpcd_eq env ev s cid u c hcu hpa]
  · intro hcu
    exact hpcd_noop_no_custom env ev s hcu
  · intro cid hcu hpa
    exact hpcd_noop_bad_parse env ev s cid hcu hpa

/-- C8 witness: concrete denied capture for user 42, course 7. -/
theorem denied_handler_spec_witness :
    (handlePaymentCaptureDenied envFix evDenFix sFix).userCourses =
      sFix.userCourses ∧
    (handlePaymentCaptureDenied envFix evDenFix sFix).transactions =
      sFix.transactions ++ [failedTxn envFix evDenFix sFix 42 7] :=
  ⟨(denied_handler_spec envFix evDenFix sFix).1,
    ((denied_handler_spec envFix evDenFix sFix).2.1 "user_42_course_7" 42 7
      (by decide) (by decide)).1⟩

/-- C5: with a configured webhook id, a request failing signature
verification is answered 401 with no state change; with no webhook id in
production the request is answered 500 with no state change before any
event processing; with no webhook id outside production the event is
processed without verification. -/
theorem webhook_signature_gate (cfg : Config) (env : Env) (req : WebhookReq)
    (fault : Option St) (s : St) :
    (cfg.paypalWebhookId ≠ "" → req.sigValid = false →
      handlePayPalWebhook cfg env req fault s = (WebhookResp.invalidSignature, s)) ∧
    (cfg.paypalWebhookId = "" → cfg.nodeEnv = "production" →
      handlePayPalWebhook cfg env req fault s =
        (WebhookResp.verificationNotConfigured, s)) ∧
    (cfg.paypalWebhookId = "" → cfg.nodeEnv ≠ "production" →
      handlePayPalWebhook cfg env req fault s =
        (match fault with
         | some s2 => (WebhookResp.receivedWithError, s2)
         | none => (WebhookResp.receivedTrue, routeEvent env req.event s))) ∧
    WebhookResp.invalidSignature.status = 401 ∧
    WebhookResp.verificationNotConfigured.status = 500 := by
  refine ⟨?_, ?_, ?_, rfl, rfl⟩
  · intro h1 h2
    unfold handlePayPalWebhook
    dsimp only
    rw [if_pos h1, if_neg (by rw [h2]; exact Bool.false_ne_true)]
  · intro h1 h2
    unfold handlePayPalWebhook
    dsimp only
    rw [if_neg (fun hne => hne h1), if_pos h2]
  · intro h1 h2
    unfold handlePayPalWebhook
    dsimp only
    rw [if_neg (fun hne => hne h1), if_neg h2]

/-- C5 witness: a tampered signature under a configured webhook id is
answered 401; a request under production with no webhook id is answered
500; in both cases the state is unchanged. -/
theorem webhook_signature_gate_witness :
    handlePayPalWebhook cfgSec envFix reqTampered none sFix =
      (WebhookResp.invalidSignature, sFix) ∧
    handlePayPalWebhook cfgProd envFix reqValid none sFix =
      (WebhookResp.verificationNotConfigured, sFix) :=
  ⟨(webhook_signature_gate cfgSec envFix reqTampered none sFix).1
      (by decide) (by decide),
    (webhook_signature_gate cfgProd envFix reqValid none sFix).2.1
      (by decide) (by decide)⟩

/-- C6: once a request has passed (or is exempt from) signature
verification, the dispatcher always answers 200 with `received: true` —
with an added error marker exactly when the routed handler throws — and an
unknown event type is ignored (state unchanged, plain 200). -/
theorem webhook_always_ack (cfg : Config) (env : Env) (req : WebhookReq)
    (fault : Option St) (s : St)
    (hpass : (cfg.paypalWebhookId ≠ "" ∧ req.sigValid = true) ∨
             (cfg.paypalWebhookId = "" ∧ cfg.nodeEnv ≠ "production")) :
    (handlePayPalWebhook cfg env req fault s).1.status = 200 ∧
    (handlePayPalWebhook cfg env req fault s).1.receivedTrueBody = true ∧
    (∀ s2, fault = some s2 →
       handlePayPalWebhook cfg env req fault s =
         (WebhookResp.receivedWithError, s2)) ∧
    (fault = none →
       handlePayPalWebhook cfg env req fault s =
         (WebhookResp.receivedTrue, routeEvent env req.event s)) ∧
    (fault = none →
       req.event.event_type ≠ "PAYMENT.CAPTURE.COMPLETED" →
       req.event.event_type ≠ "PAYMENT.CAPTURE.DENIED" →
       req.event.event_type ≠ "PAYMENT.CAPTURE.REFUNDED" →
       req.event.event_type ≠ "CHECKOUT.ORDER.APPROVED" →
       handlePayPalWebhook cfg env req fault s =
         (WebhookResp.receivedTrue, s)) := by
  have hd : handlePayPalWebhook cfg env req fault s =
      (match fault with
       | some s2 => (WebhookResp.receivedWithError, s2)
       | none => (WebhookResp.receivedTrue, routeEvent env req.event s)) := by
    rcases hpass with ⟨h1, h2⟩ | ⟨h1, h2⟩
    · unfold handlePayPalWebhook
      dsimp only
      rw [if_pos h1, if_pos h2]
    · unfold handlePayPalWebhook
      dsimp only
      rw [if_neg (fun hne => hne h1), if_neg h2]
  refine ⟨?_, ?_, ?_, ?_, ?_⟩
  · rw [hd]
    rcases fault with _ | s2 <;> rfl
  · rw [hd]
    rcases fault with _ | s2 <;> rfl
  · intro s2 hf
    rw [hd, hf]
  · intro hf
    rw [hd, hf]
  · intro hf h1 h2 h3 h4
    rw [hd, hf]
    dsimp only
    unfold routeEvent
    rw [if_neg h1, if_neg h2, if_neg h3, if_neg h4]

/-- C6 witness: a verified request carrying an unknown event type in a
dev configuration is acknowledged 200 with no state change. -/
theorem webhook_always_ack_witness :
    (handlePayPalWebhook cfgDev envFix reqUnknown none sFix).1.status = 200 ∧
    handlePayPalWebhook cfgDev envFix reqUnknown none sFix =
      (WebhookResp.receivedTrue, sFix) := by
  have h := webhook_always_ack cfgDev envFix reqUnknown none sFix
    (Or.inr ⟨rfl, by decide⟩)
  exact ⟨h.1, h.2.2.2.2 rfl (by decide) (by decide) (by decide) (by decide)⟩

/-- C9: createPurchaseOrder fails before any side effect — with the
already-purchased conflict error when the user holds the entitlement, and
with the not-found error when the course directory or metadata is missing;
in every such case the returned state is the input state (no provider
order logged, no transaction inserted). -/
theorem create_purchase_order_guards (env : Env) (userId courseId : Nat)
    (s : St) :
    (courseId ≠ 0 → env.coursesFS.contains courseId = false →
      createPurchaseOrder env userId courseId s =
        (Except.error (PurchaseErr.http "Course not found" 404), s)) ∧
    (courseId ≠ 0 → lookupMeta env courseId = none →
      createPurchaseOrder env userId courseId s =
        (Except.error (PurchaseErr.http "Course not found" 404), s)) ∧
    (∀ meta, courseId ≠ 0 → env.coursesFS.contains courseId = true →
      lookupMeta env courseId = some meta →
      hasEntitlement s userId courseId = true →
      createPurchaseOrder env userId courseId s =
        (Except.error (PurchaseErr.http "Course already purchased" 400), s)) := by
  refine ⟨?_, ?_, ?_⟩
  · intro h0 hfs
    unfold createPurchaseOrder
    rw [if_neg h0, if_pos hfs]
  · intro h0 hmeta
    unfold createPurchaseOrder
    rw [if_neg h0]
    by_cases hfs : env.coursesFS.contains courseId = false
    · rw [if_pos hfs]
    · rw [if_neg hfs, hmeta]
  · intro meta h0 hfs hmeta hent
    unfold createPurchaseOrder
    rw [if_neg h0, if_neg (by simp [hfs]; exact List.mem_of_elem_eq_true hfs), hmeta]
    dsimp only
    rw [if_pos hent]

/-- C9 witness: user 42 already owning course 7 gets the conflict error with
no state change; a nonexistent course 9 gets the not-found error with no
state change. -/
theorem create_purchase_order_guards_witness :
    createPurchaseOrder envFix 42 7 sEntFix =
      (Except.error (PurchaseErr.http "Course already purchased" 400), sEntFix) ∧
    createPurchaseOrder envFix 42 9 sFix =
      (Except.error (PurchaseErr.http "Course not found" 404), sFix) :=
  ⟨(create_purchase_order_guards envFix 42 7 sEntFix).2.2 metaFix
      (by decide) (by decide) (by decide) (by decide),
    (create_purchase_order_guards envFix 42 9 sFix).1 (by decide) (by decide)⟩

end CourseApp
